import Mathlib

/-!
Shallow embedding of the profile router of `careerConnector`
(`src/unnamed/part_000`, the most complete iteration of
`routes/api/profile.js`; the sibling iterations in
`src/routes/api/profile.js` differ only where noted).

The document store (MongoDB via Mongoose) is modelled as lists of
documents; each handler is a pure function from the request data and the
store to a response and the updated store.  JavaScript truthiness of the
optional string fields of a request body is modelled by `truthy` on
`Option String` (absent or empty string is falsy).
-/

/-- Field error produced by express-validator `check(field, msg)`. -/
structure FieldError where
  param : String
  msg : String
deriving DecidableEq, Repr

/-- HTTP responses the handlers produce: `ok` is `res.json(document)`,
`jsonMsg` is `res.json(\x7b msg \x7d)` (status 200), `badRequestErrors` is
status 400 with `\x7b errors: [...] \x7d`, `badRequestMsg` is status 400 with
`\x7b msg \x7d`, `notFoundMsg` is status 404 with `\x7b msg \x7d`, and
`serverError` is status 500 with a plain-text body. -/
inductive Response (α : Type) where
  | ok (body : α)
  | jsonMsg (msg : String)
  | badRequestErrors (errors : List FieldError)
  | badRequestMsg (msg : String)
  | notFoundMsg (msg : String)
  | serverError (msg : String)
deriving DecidableEq, Repr

/-- JavaScript truthiness of an optional string request field:
`undefined` (here `none`) and the empty string are falsy. -/
def truthy : Option String → Bool
  | none => false
  | some s => !s.isEmpty

/-- The `if (field) profilefields.field = field` pattern: keep the value
only when it is truthy. -/
def keepIf (v : Option String) : Option String :=
  if truthy v then v else none

/-- The `social` sub-document of a Profile. -/
structure Social where
  youtube : Option String
  twitter : Option String
  linkedin : Option String
  facebook : Option String
  instagram : Option String
deriving DecidableEq, Repr

/-- An entry of the `experiences` sequence.  `id` models the stable
subdocument identifier Mongoose assigns; `fromDate`/`toDate` stand for the
source's `from`/`to` fields (reserved words in Lean). -/
structure Experience where
  id : Nat
  title : Option String
  company : Option String
  location : Option String
  fromDate : Option String
  toDate : Option String
  current : Option String
  description : Option String
deriving DecidableEq, Repr

/-- An entry of the `education` sequence. -/
structure Education where
  id : Nat
  school : Option String
  degree : Option String
  fieldOfStudy : Option String
  fromDate : Option String
  toDate : Option String
  current : Option String
  description : Option String
deriving DecidableEq, Repr

/-- A Profile document.  `user` is the reference to the owning User. -/
structure Profile where
  user : String
  company : Option String
  website : Option String
  location : Option String
  bio : Option String
  status : Option String
  githubusername : Option String
  skills : List String
  social : Social
  experiences : List Experience
  education : List Education
deriving DecidableEq, Repr

/-- A User document (only the fields the router touches). -/
structure User where
  id : String
  name : String
  avatar : String
deriving DecidableEq, Repr

/-- A Post document (only the owner reference matters here). -/
structure Post where
  id : String
  user : String
deriving DecidableEq, Repr

/-- The document store: the three collections the router queries, plus a
counter supplying fresh subdocument identifiers on save. -/
structure Store where
  users : List User
  profiles : List Profile
  posts : List Post
  nextId : Nat
deriving DecidableEq, Repr

/-- Apply `g` to the first element satisfying `pred` (Mongoose
`findOneAndUpdate` / fetch-mutate-`save` both touch only the first match). -/
def modifyFirst (pred : α → Bool) (g : α → α) : List α → List α
  | [] => []
  | x :: xs => if pred x then g x :: xs else x :: modifyFirst pred g xs

/-- Remove the first element satisfying `pred` (`findOneAndRemove`). -/
def removeFirst (pred : α → Bool) : List α → List α
  | [] => []
  | x :: xs => if pred x then xs else x :: removeFirst pred xs

/-- Index of the first occurrence, `none` when absent (helper for
`jsIndexOf`). -/
def jsIndexOfAux (c : Nat) : List Nat → Option Nat
  | [] => none
  | x :: xs => if x == c then some 0 else (jsIndexOfAux c xs).map (· + 1)

/-- JavaScript `Array.prototype.indexOf`: first index of the value, `-1`
when it does not occur. -/
def jsIndexOf (xs : List Nat) (c : Nat) : Int :=
  match jsIndexOfAux c xs with
  | some i => (i : Int)
  | none => -1

/-- JavaScript `Array.prototype.splice(start, deleteCount)` restricted to
its removal effect: a negative `start` counts from the end and is clamped
at `0`; a too-large `start` is clamped at the length. -/
def spliceRemove (xs : List α) (start : Int) (deleteCount : Nat) : List α :=
  let len : Int := xs.length
  let s : Nat := if start < 0 then (max (len + start) 0).toNat else (min start len).toNat
  xs.take s ++ xs.drop (s + deleteCount)

/-- Body of `POST api/profile` (all fields optional strings at the HTTP
level; presence/emptiness is what the handler inspects). -/
structure UpsertBody where
  company : Option String
  website : Option String
  location : Option String
  bio : Option String
  status : Option String
  githubusername : Option String
  skills : Option String
  youtube : Option String
  facebook : Option String
  twitter : Option String
  instagram : Option String
  linkedin : Option String
deriving DecidableEq, Repr

/-- A body with every field absent. -/
def emptyBody : UpsertBody :=
  { company := none, website := none, location := none, bio := none,
    status := none, githubusername := none, skills := none, youtube := none,
    facebook := none, twitter := none, instagram := none, linkedin := none }

/-- The two `check(...).not().isEmpty()` validators of `POST api/profile`:
an error entry per required field that is absent or empty. -/
def validateUpsert (b : UpsertBody) : List FieldError :=
  (if truthy b.status then [] else [{ param := "status", msg := "Status is required" }]) ++
  (if truthy b.skills then [] else [{ param := "skills", msg := "Skills is required" }])

/-- JavaScript `String.prototype.split(sep)` for a one-character
separator, at the character level: splitting the empty string yields one
empty segment, and every separator occurrence starts a new segment. -/
def jsSplit (sep : Char) : List Char → List (List Char)
  | [] => [[]]
  | c :: rest =>
      let r := jsSplit sep rest
      if c = sep then [] :: r
      else
        match r with
        | [] => [[c]]
        | g :: gs => (c :: g) :: gs

/-- The whitespace class JavaScript `String.prototype.trim` strips (the
characters that occur in this code base's inputs). -/
def isJsWhitespace (c : Char) : Bool :=
  c = ' ' || c = '\t' || c = '\n' || c = '\r'

/-- JavaScript `String.prototype.trim`: drop whitespace from both ends. -/
def jsTrim (cs : List Char) : List Char :=
  ((cs.dropWhile isJsWhitespace).reverse.dropWhile isJsWhitespace).reverse

/-- `skills.split(',').map(skill => skill.trim())`. -/
def parseSkills (s : String) : List String :=
  (jsSplit ',' s.data).map (fun g => String.mk (jsTrim g))

/-- The social object built on every POST: `profilefields.social = \x7b\x7d`
followed by one `if (key) profilefields.social.key = key` per key. -/
def buildSocial (b : UpsertBody) : Social :=
  { youtube := keepIf b.youtube
    twitter := keepIf b.twitter
    linkedin := keepIf b.linkedin
    facebook := keepIf b.facebook
    instagram := keepIf b.instagram }

/-- The sparse `profilefields` patch object: `user` and `social` are always
present, every other key only when the corresponding input is truthy. -/
structure ProfileFields where
  user : String
  company : Option String
  website : Option String
  location : Option String
  bio : Option String
  status : Option String
  githubusername : Option String
  skills : Option (List String)
  social : Social
deriving DecidableEq, Repr

/-- Build `profilefields` from the request (part_000 lines 72-90). -/
def buildProfileFields (uid : String) (b : UpsertBody) : ProfileFields :=
  { user := uid
    company := keepIf b.company
    website := keepIf b.website
    location := keepIf b.location
    bio := keepIf b.bio
    status := keepIf b.status
    githubusername := keepIf b.githubusername
    skills := (keepIf b.skills).map parseSkills
    social := buildSocial b }

/-- MongoDB `$set` on one optional field: replace when the key is in the
patch, keep the stored value otherwise. -/
def setField (patch : Option α) (old : Option α) : Option α :=
  match patch with
  | some v => some v
  | none => old

/-- MongoDB `findOneAndUpdate(_, \x7b $set: profilefields \x7d)` applied to one
document: keys present in the patch are replaced wholesale (`social`
always is), absent keys keep their stored value, and the embedded
`experiences`/`education` sequences are untouched. -/
def applySet (p : Profile) (f : ProfileFields) : Profile :=
  { user := f.user
    company := setField f.company p.company
    website := setField f.website p.website
    location := setField f.location p.location
    bio := setField f.bio p.bio
    status := setField f.status p.status
    githubusername := setField f.githubusername p.githubusername
    skills := f.skills.getD p.skills
    social := f.social
    experiences := p.experiences
    education := p.education }

/-- `new Profile(profilefields)`: absent keys default (sequences empty). -/
def newProfile (f : ProfileFields) : Profile :=
  { user := f.user
    company := f.company
    website := f.website
    location := f.location
    bio := f.bio
    status := f.status
    githubusername := f.githubusername
    skills := f.skills.getD []
    social := f.social
    experiences := []
    education := [] }

/-- `Profile.findOne(\x7b user: uid \x7d)`. -/
def findProfileByUser (uid : String) (s : Store) : Option Profile :=
  s.profiles.find? (fun p => p.user == uid)

/-- `User.findOne(\x7b _id: uid \x7d)`-style lookup. -/
def findUserById (uid : String) (s : Store) : Option User :=
  s.users.find? (fun u => u.id == uid)

/-- `Post.find(\x7b user: uid \x7d)`. -/
def findPostsByUser (uid : String) (s : Store) : List Post :=
  s.posts.filter (fun p => p.user == uid)

/-- `POST api/profile` (part_000 lines 41-116): validate `status` and
`skills`, build the sparse patch, then update the existing Profile in
place (`findOneAndUpdate` with `$set`, returning the updated document) or
insert a new one. -/
def upsertProfile (uid : String) (b : UpsertBody) (s : Store) :
    Response Profile × Store :=
  let errors := validateUpsert b
  if errors.isEmpty then
    let f := buildProfileFields uid b
    match s.profiles.find? (fun p => p.user == uid) with
    | some p =>
        (Response.ok (applySet p f),
         { s with profiles := modifyFirst (fun q => q.user == uid) (fun q => applySet q f) s.profiles })
    | none =>
        (Response.ok (newProfile f),
         { s with profiles := s.profiles ++ [newProfile f] })
  else (Response.badRequestErrors errors, s)

/-- Body of `PUT api/profile/experience`. -/
structure ExperienceBody where
  title : Option String
  company : Option String
  location : Option String
  fromDate : Option String
  toDate : Option String
  current : Option String
  description : Option String
deriving DecidableEq, Repr

/-- Body of `PUT api/profile/education`. -/
structure EducationBody where
  school : Option String
  degree : Option String
  fieldOfStudy : Option String
  fromDate : Option String
  toDate : Option String
  current : Option String
  description : Option String
deriving DecidableEq, Repr

/-- Validators of `PUT api/profile/experience`: `title`, `company`, `from`
required. -/
def validateExperience (b : ExperienceBody) : List FieldError :=
  (if truthy b.title then [] else [{ param := "title", msg := "Title is required" }]) ++
  (if truthy b.company then [] else [{ param := "company", msg := "Company is required" }]) ++
  (if truthy b.fromDate then [] else [{ param := "from", msg := "From date is required" }])

/-- Validators of `PUT api/profile/education`: `school`, `degree`,
`fieldOfStudy`, `from` required. -/
def validateEducation (b : EducationBody) : List FieldError :=
  (if truthy b.school then [] else [{ param := "school", msg := "School is required" }]) ++
  (if truthy b.degree then [] else [{ param := "degree", msg := "Degree is required" }]) ++
  (if truthy b.fieldOfStudy then [] else [{ param := "fieldOfStudy", msg := "Field of study is required" }]) ++
  (if truthy b.fromDate then [] else [{ param := "from", msg := "From date is required" }])

/-- The `newExp` object, with the identifier Mongoose assigns on save. -/
def mkExperience (i : Nat) (b : ExperienceBody) : Experience :=
  { id := i, title := b.title, company := b.company, location := b.location,
    fromDate := b.fromDate, toDate := b.toDate, current := b.current,
    description := b.description }

/-- The `newEdu` object, with the identifier Mongoose assigns on save. -/
def mkEducation (i : Nat) (b : EducationBody) : Education :=
  { id := i, school := b.school, degree := b.degree,
    fieldOfStudy := b.fieldOfStudy, fromDate := b.fromDate,
    toDate := b.toDate, current := b.current, description := b.description }

/-- `PUT api/profile/experience` (part_000 lines 183-230): validate, fetch
the caller's Profile, `unshift` the new entry, save.  When the caller has
no Profile the source dereferences `null` and the catch block answers 500. -/
def addExperience (uid : String) (b : ExperienceBody) (s : Store) :
    Response Profile × Store :=
  let errors := validateExperience b
  if errors.isEmpty then
    match s.profiles.find? (fun p => p.user == uid) with
    | none => (Response.serverError "Server error!!", s)
    | some p =>
        let p2 := { p with experiences := mkExperience s.nextId b :: p.experiences }
        (Response.ok p2,
         { s with profiles := modifyFirst (fun q => q.user == uid) (fun _ => p2) s.profiles,
                  nextId := s.nextId + 1 })
  else (Response.badRequestErrors errors, s)

/-- `PUT api/profile/education` (part_000 lines 262-310), symmetric to
`addExperience`. -/
def addEducation (uid : String) (b : EducationBody) (s : Store) :
    Response Profile × Store :=
  let errors := validateEducation b
  if errors.isEmpty then
    match s.profiles.find? (fun p => p.user == uid) with
    | none => (Response.serverError "Server error!!", s)
    | some p =>
        let p2 := { p with education := mkEducation s.nextId b :: p.education }
        (Response.ok p2,
         { s with profiles := modifyFirst (fun q => q.user == uid) (fun _ => p2) s.profiles,
                  nextId := s.nextId + 1 })
  else (Response.badRequestErrors errors, s)

/-- `DELETE api/profile/experience/:exp_id` (part_000 lines 237-255):
`removeIndex = experiences.map(item => item.id).indexOf(exp_id)` followed
by `experiences.splice(removeIndex, 1)` and save. -/
def removeExperience (uid : String) (expId : Nat) (s : Store) :
    Response Profile × Store :=
  match s.profiles.find? (fun p => p.user == uid) with
  | none => (Response.serverError "Server error!", s)
  | some p =>
      let removeIndex := jsIndexOf (p.experiences.map (fun e => e.id)) expId
      let p2 := { p with experiences := spliceRemove p.experiences removeIndex 1 }
      (Response.ok p2,
       { s with profiles := modifyFirst (fun q => q.user == uid) (fun _ => p2) s.profiles })

/-- `DELETE api/profile/education/:edu_id` (part_000 lines 317-335),
symmetric to `removeExperience`. -/
def removeEducation (uid : String) (eduId : Nat) (s : Store) :
    Response Profile × Store :=
  match s.profiles.find? (fun p => p.user == uid) with
  | none => (Response.serverError "Server error!", s)
  | some p =>
      let removeIndex := jsIndexOf (p.education.map (fun e => e.id)) eduId
      let p2 := { p with education := spliceRemove p.education removeIndex 1 }
      (Response.ok p2,
       { s with profiles := modifyFirst (fun q => q.user == uid) (fun _ => p2) s.profiles })

/-- Step 1 of `DELETE api/profile`: `Post.deleteMany(\x7b user: uid \x7d)`. -/
def removePostsStep (uid : String) (s : Store) : Store :=
  { s with posts := s.posts.filter (fun p => !(p.user == uid)) }

/-- Step 2 of `DELETE api/profile`: `Profile.findOneAndRemove(\x7b user \x7d)`. -/
def removeProfileStep (uid : String) (s : Store) : Store :=
  { s with profiles := removeFirst (fun p => p.user == uid) s.profiles }

/-- Step 3 of `DELETE api/profile`: `User.findOneAndRemove(\x7b _id \x7d)`. -/
def removeUserStep (uid : String) (s : Store) : Store :=
  { s with users := removeFirst (fun u => u.id == uid) s.users }

/-- `DELETE api/profile` (part_000 lines 162-176): delete the caller's
Posts, then the Profile, then the User, answering `\x7b msg \x7d`. -/
def deleteOwnProfile (uid : String) (s : Store) : Response Unit × Store :=
  let s1 := removePostsStep uid s
  let s2 := removeProfileStep uid s1
  let s3 := removeUserStep uid s2
  (Response.jsonMsg "User removed!", s3)

/-- Hex digit test for `isValidObjectId`. -/
def isHexDigit (c : Char) : Bool :=
  c.isDigit || ('a' ≤ c && c ≤ 'f') || ('A' ≤ c && c ≤ 'F')

/-- Model of the Mongoose ObjectId cast on a route parameter: a 24
character hexadecimal string casts, anything else throws a `CastError`
with `kind = 'ObjectId'`. -/
def isValidObjectId (s : String) : Bool :=
  s.length == 24 && s.toList.all isHexDigit

/-- `GET api/profile/user/:user_id` as written in part_000 lines 138-155:
a malformed id makes `findOne` throw a CastError that the catch block maps
to 400; on a cast-able id, `findOne` returns the document or `null`, and
the guard `profile.length === 0` is evaluated on that result.  On `null`
the property access throws a TypeError (whose `kind` is not `'ObjectId'`),
so the catch block answers 500; on a found document `length` is undefined,
the guard is false and the document is returned. -/
def getProfileByUser (userId : String) (s : Store) : Response Profile :=
  if isValidObjectId userId then
    match s.profiles.find? (fun p => p.user == userId) with
    | some p => Response.ok p
    | none => Response.serverError "Server Error!"
  else Response.badRequestMsg "Profile not found!"

/-- The same route as written in the sibling iteration
`src/routes/api/profile.js` lines 140-158: `Profile.find` returns an
array, so the `profile.length === 0` guard really detects absence and
answers 400 `Profile not found!`; a malformed id is caught as 400 too. -/
def getProfileByUserFind (userId : String) (s : Store) :
    Response (List Profile) :=
  if isValidObjectId userId then
    let profiles := s.profiles.filter (fun p => p.user == userId)
    if profiles.length == 0 then Response.badRequestMsg "Profile not found!"
    else Response.ok profiles
  else Response.badRequestMsg "Profile not found!"

/-- The URI `GET api/profile/github/:username` requests (part_000 lines
344-346); `encodeURI` leaves every character of this template unchanged. -/
def githubRequestUri (username : String) : String :=
  "https://api.github.com/users/" ++ username ++ "/repos?per_page=5&sort=created:asc"

/-- The outgoing GitHub request: URI plus the two headers of part_000
lines 347-350. -/
structure GithubRequest where
  uri : String
  userAgent : String
  authorization : String
deriving DecidableEq, Repr

/-- Build the GitHub request with the configured `githubToken`. -/
def buildGithubRequest (githubToken username : String) : GithubRequest :=
  { uri := githubRequestUri username
    userAgent := "node.js"
    authorization := "token " ++ githubToken }

/-- Outcome of the awaited `axios.get`: either response data or a raised
error (network, auth, unknown user — the handler never looks at `cause`). -/
inductive UpstreamResult (α : Type) where
  | success (data : α)
  | failure (cause : String)
deriving DecidableEq, Repr

/-- `GET api/profile/github/:username` (part_000 lines 342-358): forward
the upstream data on success; any raised error lands in the catch block,
which answers 404 with the one generic message. -/
def fetchGithubRepos {α : Type} (result : UpstreamResult α) : Response α :=
  match result with
  | UpstreamResult.success d => Response.ok d
  | UpstreamResult.failure _ => Response.notFoundMsg "No Github profile found!!!!"

/-- Follows the spec's words, for comparison with `githubRequestUri`: a
request for "the 5 most recently created repositories" must ask the
GitHub API for sort key `created` in descending (newest-first) direction. -/
def specMostRecentlyCreatedUri (username : String) : String :=
  "https://api.github.com/users/" ++ username ++ "/repos?per_page=5&sort=created&direction=desc"

/-- The store-mutating operations of the router, for the uniqueness
invariant. -/
inductive Op where
  | upsert (uid : String) (b : UpsertBody)
  | addExp (uid : String) (b : ExperienceBody)
  | addEdu (uid : String) (b : EducationBody)
  | removeExp (uid : String) (expId : Nat)
  | removeEdu (uid : String) (eduId : Nat)
  | deleteOwn (uid : String)
deriving DecidableEq, Repr

/-- The store after one operation. -/
def applyOp (s : Store) : Op → Store
  | Op.upsert uid b => (upsertProfile uid b s).2
  | Op.addExp uid b => (addExperience uid b s).2
  | Op.addEdu uid b => (addEducation uid b s).2
  | Op.removeExp uid i => (removeExperience uid i s).2
  | Op.removeEdu uid i => (removeEducation uid i s).2
  | Op.deleteOwn uid => (deleteOwnProfile uid s).2

/-- At most one Profile per user reference: the stored user references
are pairwise distinct. -/
def profilesInv (s : Store) : Prop :=
  (s.profiles.map (fun p => p.user)).Nodup

/-- A profile with every optional field absent, for concrete stores. -/
def emptySocial : Social :=
  { youtube := none, twitter := none, linkedin := none, facebook := none,
    instagram := none }

/-- A bare profile for a user, for concrete stores. -/
def emptyProfile (uid : String) : Profile :=
  { user := uid, company := none, website := none, location := none,
    bio := none, status := none, githubusername := none, skills := [],
    social := emptySocial, experiences := [], education := [] }

/-- The store with empty collections. -/
def emptyStore : Store := { users := [], profiles := [], posts := [], nextId := 0 }

theorem modifyFirst_length (pred : α → Bool) (g : α → α) (xs : List α) :
    (modifyFirst pred g xs).length = xs.length := by
  induction xs with
  | nil => rfl
  | cons x xs ih => cases h : pred x <;> simp [modifyFirst, h, ih]

theorem find?_modifyFirst (pred : α → Bool) (g : α → α) (xs : List α) (a : α)
    (hfind : xs.find? pred = some a) (hg : pred (g a) = true) :
    (modifyFirst pred g xs).find? pred = some (g a) := by
  induction xs with
  | nil => simp at hfind
  | cons x xs ih =>
      cases h : pred x with
      | true =>
          rw [List.find?_cons_of_pos _ h] at hfind
          injection hfind with hxa
          subst hxa
          simp [modifyFirst, h, List.find?_cons_of_pos _ hg]
      | false =>
          rw [List.find?_cons_of_neg _ (by simp [h])] at hfind
          simp [modifyFirst, h, List.find?_cons_of_neg _ (by simp [h] : ¬pred x = true), ih hfind]

theorem map_modifyFirst (f : α → β) (pred : α → Bool) (g : α → α) (xs : List α)
    (h : ∀ x, pred x = true → f (g x) = f x) :
    (modifyFirst pred g xs).map f = xs.map f := by
  induction xs with
  | nil => rfl
  | cons x xs ih =>
      cases hx : pred x
      · simp [modifyFirst, hx, ih]
      · simp [modifyFirst, hx, h x hx]

theorem removeFirst_sublist (pred : α → Bool) (xs : List α) :
    List.Sublist (removeFirst pred xs) xs := by
  induction xs with
  | nil => simp [removeFirst]
  | cons x xs ih =>
      cases hx : pred x
      · simpa [removeFirst, hx] using ih.cons₂ x
      · simp only [removeFirst, hx]
        exact List.sublist_cons_self x xs

theorem not_mem_map_of_find?_none (f : α → String) (c : String) (xs : List α)
    (h : xs.find? (fun x => f x == c) = none) : c ∉ xs.map f := by
  intro hmem
  rcases List.mem_map.mp hmem with ⟨x, hx, hfx⟩
  have hnone := List.find?_eq_none.mp h x hx
  simp [hfx] at hnone

theorem find?_removeFirst_of_nodup (f : α → String) (c : String) (xs : List α)
    (h : (xs.map f).Nodup) :
    (removeFirst (fun x => f x == c) xs).find? (fun x => f x == c) = none := by
  induction xs with
  | nil => rfl
  | cons x xs ih =>
      simp only [List.map_cons, List.nodup_cons] at h
      obtain ⟨hnot, hnodup⟩ := h
      cases hx : (f x == c) with
      | false =>
          have hr : removeFirst (fun x => f x == c) (x :: xs)
              = x :: removeFirst (fun x => f x == c) xs := by
            simp [removeFirst, hx]
          rw [hr, List.find?_cons_of_neg _ (by simp [hx])]
          exact ih hnodup
      | true =>
          have hc : f x = c := by simpa using hx
          have hr : removeFirst (fun x => f x == c) (x :: xs) = xs := by
            simp [removeFirst, hx]
          rw [hr]
          apply List.find?_eq_none.mpr
          intro y hy
          intro hpy
          have hyc : f y = c := by simpa using hpy
          exact hnot (by rw [hc, ← hyc]; exact List.mem_map_of_mem f hy)

theorem filter_pred_filter_not (pred : α → Bool) (xs : List α) :
    (xs.filter (fun x => !(pred x))).filter pred = [] := by
  induction xs with
  | nil => rfl
  | cons x xs ih => cases hx : pred x <;> simp [List.filter_cons, hx, ih]

theorem find?_append_singleton_of_none (pred : α → Bool) (xs : List α) (a : α)
    (h : xs.find? pred = none) (ha : pred a = true) :
    (xs ++ [a]).find? pred = some a := by
  induction xs with
  | nil => simpa using List.find?_cons_of_pos [] ha
  | cons x xs ih =>
      have hx : pred x = false := by
        cases hpx : pred x
        · rfl
        · rw [List.find?_cons_of_pos _ hpx] at h
          exact absurd h (by simp)
      rw [List.find?_cons_of_neg _ (by simp [hx])] at h
      rw [List.cons_append, List.find?_cons_of_neg _ (by simp [hx])]
      exact ih h

theorem jsIndexOfAux_eq_none (c : Nat) (xs : List Nat) (h : c ∉ xs) :
    jsIndexOfAux c xs = none := by
  induction xs with
  | nil => rfl
  | cons x xs ih =>
      simp only [List.mem_cons, not_or] at h
      have hx : (x == c) = false := beq_eq_false_iff_ne.mpr (fun hxc => h.1 hxc.symm)
      simp [jsIndexOfAux, hx, ih h.2]

theorem jsIndexOf_eq_neg_one (c : Nat) (xs : List Nat) (h : c ∉ xs) :
    jsIndexOf xs c = -1 := by
  simp [jsIndexOf, jsIndexOfAux_eq_none c xs h]

theorem spliceRemove_neg_one (xs : List α) : spliceRemove xs (-1) 1 = xs.dropLast := by
  have hs : (if (-1 : Int) < 0 then (max ((xs.length : Int) + (-1)) 0).toNat
      else (min (-1 : Int) (xs.length : Int)).toNat) = xs.length - 1 := by
    rw [if_pos (by norm_num)]
    omega
  show xs.take _ ++ xs.drop _ = xs.dropLast
  rw [hs, List.drop_eq_nil_of_le (by omega), List.append_nil, List.dropLast_eq_take]

theorem validateUpsert_nil (b : UpsertBody) (hv : validateUpsert b = []) :
    truthy b.status = true ∧ truthy b.skills = true := by
  cases hs : truthy b.status with
  | false => exact absurd hv (by simp [validateUpsert, hs])
  | true =>
      cases hk : truthy b.skills with
      | false => exact absurd hv (by simp [validateUpsert, hs, hk])
      | true => exact ⟨rfl, rfl⟩

theorem user_applySet (q : Profile) (f : ProfileFields) :
    (applySet q f).user = f.user := rfl

theorem nodup_map_user_modifyFirst (uid : String) (g : Profile → Profile)
    (ps : List Profile)
    (hg : ∀ q, (q.user == uid) = true → (g q).user = q.user)
    (h : (ps.map (fun p => p.user)).Nodup) :
    ((modifyFirst (fun q => q.user == uid) g ps).map (fun p => p.user)).Nodup := by
  rw [map_modifyFirst (fun p => p.user) _ g ps hg]
  exact h

theorem applyOp_profilesInv (s : Store) (op : Op) (h : profilesInv s) :
    profilesInv (applyOp s op) := by
  cases op with
  | upsert uid b =>
      show profilesInv (upsertProfile uid b s).2
      cases he : (validateUpsert b).isEmpty with
      | false =>
          have hst : (upsertProfile uid b s).2 = s := by
            simp [upsertProfile, he]
          rw [hst]; exact h
      | true =>
          cases hf : s.profiles.find? (fun p => p.user == uid) with
          | none =>
              have hst : (upsertProfile uid b s).2.profiles
                  = s.profiles ++ [newProfile (buildProfileFields uid b)] := by
                simp [upsertProfile, he, hf]
              unfold profilesInv
              rw [hst]
              have hmem : uid ∉ s.profiles.map (fun p => p.user) :=
                not_mem_map_of_find?_none (fun p => p.user) uid s.profiles hf
              simp only [List.map_append, List.map_cons, List.map_nil]
              refine (List.perm_append_singleton _ _).nodup_iff.mpr ?_
              exact List.nodup_cons.mpr ⟨by simpa [newProfile, buildProfileFields] using hmem, h⟩
          | some p =>
              have hst : (upsertProfile uid b s).2.profiles
                  = modifyFirst (fun q => q.user == uid)
                      (fun q => applySet q (buildProfileFields uid b)) s.profiles := by
                simp [upsertProfile, he, hf]
              unfold profilesInv
              rw [hst]
              refine nodup_map_user_modifyFirst uid _ s.profiles ?_ h
              intro q hq
              rw [user_applySet]
              show uid = q.user
              exact (eq_of_beq hq).symm
  | addExp uid b =>
      show profilesInv (addExperience uid b s).2
      cases he : (validateExperience b).isEmpty with
      | false =>
          have hst : (addExperience uid b s).2 = s := by simp [addExperience, he]
          rw [hst]; exact h
      | true =>
          cases hf : s.profiles.find? (fun p => p.user == uid) with
          | none =>
              have hst : (addExperience uid b s).2 = s := by simp [addExperience, he, hf]
              rw [hst]; exact h
          | some p =>
              have hst : (addExperience uid b s).2.profiles
                  = modifyFirst (fun q => q.user == uid)
                      (fun _ => { p with experiences := mkExperience s.nextId b :: p.experiences })
                      s.profiles := by
                simp [addExperience, he, hf]
              unfold profilesInv
              rw [hst]
              refine nodup_map_user_modifyFirst uid _ s.profiles ?_ h
              intro q hq
              show p.user = q.user
              have hpu : p.user = uid := by simpa using List.find?_some hf
              rw [hpu, eq_of_beq hq]
  | addEdu uid b =>
      show profilesInv (addEducation uid b s).2
      cases he : (validateEducation b).isEmpty with
      | false =>
          have hst : (addEducation uid b s).2 = s := by simp [addEducation, he]
          rw [hst]; exact h
      | true =>
          cases hf : s.profiles.find? (fun p => p.user == uid) with
          | none =>
              have hst : (addEducation uid b s).2 = s := by simp [addEducation, he, hf]
              rw [hst]; exact h
          | some p =>
              have hst : (addEducation uid b s).2.profiles
                  = modifyFirst (fun q => q.user == uid)
                      (fun _ => { p with education := mkEducation s.nextId b :: p.education })
                      s.profiles := by
                simp [addEducation, he, hf]
              unfold profilesInv
              rw [hst]
              refine nodup_map_user_modifyFirst uid _ s.profiles ?_ h
              intro q hq
              show p.user = q.user
              have hpu : p.user = uid := by simpa using List.find?_some hf
              rw [hpu, eq_of_beq hq]
  | removeExp uid i =>
      show profilesInv (removeExperience uid i s).2
      cases hf : s.profiles.find? (fun p => p.user == uid) with
      | none =>
          have hst : (removeExperience uid i s).2 = s := by simp [removeExperience, hf]
          rw [hst]; exact h
      | some p =>
          have hst : (removeExperience uid i s).2.profiles
              = modifyFirst (fun q => q.user == uid)
                  (fun _ => { p with experiences := spliceRemove p.experiences (jsIndexOf (p.experiences.map (fun e => e.id)) i) 1 })
                  s.profiles := by
            simp [removeExperience, hf]
          unfold profilesInv
          rw [hst]
          refine nodup_map_user_modifyFirst uid _ s.profiles ?_ h
          intro q hq
          show p.user = q.user
          have hpu : p.user = uid := by simpa using List.find?_some hf
          rw [hpu, eq_of_beq hq]
  | removeEdu uid i =>
      show profilesInv (removeEducation uid i s).2
      cases hf : s.profiles.find? (fun p => p.user == uid) with
      | none =>
          have hst : (removeEducation uid i s).2 = s := by simp [removeEducation, hf]
          rw [hst]; exact h
      | some p =>
          have hst : (removeEducation uid i s).2.profiles
              = modifyFirst (fun q => q.user == uid)
                  (fun _ => { p with education := spliceRemove p.education (jsIndexOf (p.education.map (fun e => e.id)) i) 1 })
                  s.profiles := by
            simp [removeEducation, hf]
          unfold profilesInv
          rw [hst]
          refine nodup_map_user_modifyFirst uid _ s.profiles ?_ h
          intro q hq
          show p.user = q.user
          have hpu : p.user = uid := by simpa using List.find?_some hf
          rw [hpu, eq_of_beq hq]
  | deleteOwn uid =>
      show profilesInv (deleteOwnProfile uid s).2
      have hst : (deleteOwnProfile uid s).2.profiles
          = removeFirst (fun p => p.user == uid) s.profiles := rfl
      unfold profilesInv
      rw [hst]
      exact h.sublist ((removeFirst_sublist _ s.profiles).map (fun p => p.user))

/-- C9: every operation preserves the invariant that there is at most one
Profile per user reference: starting from a store whose stored user
references are pairwise distinct, no sequence of upsertProfile,
addExperience, addEducation, removeExperience, removeEducation or
deleteOwnProfile calls ever produces two Profiles with the same user
reference. -/
theorem C9_at_most_one_profile_per_user (ops : List Op) (S : Store)
    (h : profilesInv S) : profilesInv (ops.foldl applyOp S) := by
  induction ops generalizing S with
  | nil => exact h
  | cons op ops ih => exact ih (applyOp S op) (applyOp_profilesInv S op h)

/-- A valid upsert body for concrete runs. -/
def w9body : UpsertBody := { emptyBody with status := some "dev", skills := some "js" }

/-- A valid experience body for concrete runs. -/
def w9exp : ExperienceBody :=
  { title := some "Dev", company := some "Acme", location := none,
    fromDate := some "2020", toDate := none, current := none,
    description := none }

/-- A concrete operation sequence exercising every constructor. -/
def w9ops : List Op :=
  [Op.upsert "u1" w9body, Op.upsert "u1" w9body, Op.upsert "u2" w9body,
   Op.addExp "u1" w9exp, Op.removeExp "u1" 99, Op.deleteOwn "u2",
   Op.addEdu "u1" { school := some "MIT", degree := some "BS",
                    fieldOfStudy := some "CS", fromDate := some "2015",
                    toDate := none, current := none, description := none },
   Op.removeEdu "u1" 0]

/-- Witness for C9 at a concrete operation sequence and store. -/
theorem C9_witness :
    profilesInv emptyStore ∧ profilesInv (w9ops.foldl applyOp emptyStore) :=
  ⟨by unfold profilesInv; decide,
   C9_at_most_one_profile_per_user w9ops emptyStore (by unfold profilesInv; decide)⟩

/-- C2: deleteOwnProfile factors as the Posts step, then the Profile step,
then the User step, answers the removal message, and afterwards querying
the user's Posts, Profile or User record returns not-found (given that the
store held at most one Profile per user and at most one User per id). -/
theorem C2_delete_cascade_removes_all (uid : String) (S : Store)
    (hp : (S.profiles.map (fun p => p.user)).Nodup)
    (hu : (S.users.map (fun u => u.id)).Nodup) :
    deleteOwnProfile uid S
      = (Response.jsonMsg "User removed!",
         removeUserStep uid (removeProfileStep uid (removePostsStep uid S))) ∧
    findPostsByUser uid (deleteOwnProfile uid S).2 = [] ∧
    findProfileByUser uid (deleteOwnProfile uid S).2 = none ∧
    findUserById uid (deleteOwnProfile uid S).2 = none := by
  refine ⟨rfl, ?_, ?_, ?_⟩
  · show ((S.posts.filter fun p => !(p.user == uid)).filter fun p => p.user == uid) = []
    exact filter_pred_filter_not _ _
  · show (removeFirst (fun p => p.user == uid) S.profiles).find?
        (fun p => p.user == uid) = none
    exact find?_removeFirst_of_nodup (fun p => p.user) uid S.profiles hp
  · show (removeFirst (fun u => u.id == uid) S.users).find?
        (fun u => u.id == uid) = none
    exact find?_removeFirst_of_nodup (fun u => u.id) uid S.users hu

/-- A concrete store for the C2 witness: one user with a profile and two
posts, plus an unrelated post. -/
def w2S : Store :=
  { users := [{ id := "u1", name := "Ann", avatar := "a.png" }],
    profiles := [emptyProfile "u1"],
    posts := [{ id := "p1", user := "u1" }, { id := "p2", user := "u1" },
              { id := "p3", user := "u2" }],
    nextId := 0 }

/-- Witness for C2 at the concrete store. -/
theorem C2_witness :
    (w2S.profiles.map (fun p => p.user)).Nodup ∧
    (w2S.users.map (fun u => u.id)).Nodup ∧
    (deleteOwnProfile "u1" w2S
      = (Response.jsonMsg "User removed!",
         removeUserStep "u1" (removeProfileStep "u1" (removePostsStep "u1" w2S))) ∧
     findPostsByUser "u1" (deleteOwnProfile "u1" w2S).2 = [] ∧
     findProfileByUser "u1" (deleteOwnProfile "u1" w2S).2 = none ∧
     findUserById "u1" (deleteOwnProfile "u1" w2S).2 = none) :=
  ⟨by decide, by decide,
   C2_delete_cascade_removes_all "u1" w2S (by decide) (by decide)⟩

/-- C1: when the user already has a Profile, a second POST with a valid
body updates that Profile in place (the collection keeps its length and
the lookup returns the updated document, not a duplicate), and every
optional field omitted from the request (company, website, location, bio,
githubusername) keeps the value it had before the update. -/
theorem C1_repost_updates_in_place (uid : String) (b : UpsertBody) (S : Store)
    (p : Profile) (hp : findProfileByUser uid S = some p)
    (hv : validateUpsert b = []) :
    (upsertProfile uid b S).1 = Response.ok (applySet p (buildProfileFields uid b)) ∧
    (upsertProfile uid b S).2.profiles.length = S.profiles.length ∧
    findProfileByUser uid (upsertProfile uid b S).2
      = some (applySet p (buildProfileFields uid b)) ∧
    (truthy b.company = false → (applySet p (buildProfileFields uid b)).company = p.company) ∧
    (truthy b.website = false → (applySet p (buildProfileFields uid b)).website = p.website) ∧
    (truthy b.location = false → (applySet p (buildProfileFields uid b)).location = p.location) ∧
    (truthy b.bio = false → (applySet p (buildProfileFields uid b)).bio = p.bio) ∧
    (truthy b.githubusername = false →
      (applySet p (buildProfileFields uid b)).githubusername = p.githubusername) := by
  have hf : S.profiles.find? (fun q => q.user == uid) = some p := hp
  have hr2 : (upsertProfile uid b S).2.profiles
      = modifyFirst (fun q => q.user == uid)
          (fun q => applySet q (buildProfileFields uid b)) S.profiles := by
    simp [upsertProfile, hv, hf]
  refine ⟨by simp [upsertProfile, hv, hf], ?_, ?_, ?_, ?_, ?_, ?_, ?_⟩
  · rw [hr2, modifyFirst_length]
  · show (upsertProfile uid b S).2.profiles.find? (fun q => q.user == uid) = _
    rw [hr2]
    exact find?_modifyFirst _ _ _ p hf (by simp [applySet, buildProfileFields])
  · intro hc; simp [applySet, buildProfileFields, keepIf, hc, setField]
  · intro hc; simp [applySet, buildProfileFields, keepIf, hc, setField]
  · intro hc; simp [applySet, buildProfileFields, keepIf, hc, setField]
  · intro hc; simp [applySet, buildProfileFields, keepIf, hc, setField]
  · intro hc; simp [applySet, buildProfileFields, keepIf, hc, setField]

/-- Stored profile for the C1 witness: company and bio already set. -/
def w1p : Profile :=
  { emptyProfile "u1" with
    company := some "Acme"
    bio := some "hello"
    status := some "Dev"
    skills := ["js"] }

/-- Store for the C1 witness. -/
def w1S : Store := { emptyStore with profiles := [w1p] }

/-- Second POST body for the C1 witness: `company` and `bio` omitted. -/
def w1b : UpsertBody := { emptyBody with status := some "Mgr", skills := some "go" }

/-- Witness for C1 at a concrete store and second request body. -/
theorem C1_witness :
    findProfileByUser "u1" w1S = some w1p ∧
    validateUpsert w1b = [] ∧
    ((upsertProfile "u1" w1b w1S).1 = Response.ok (applySet w1p (buildProfileFields "u1" w1b)) ∧
     (upsertProfile "u1" w1b w1S).2.profiles.length = w1S.profiles.length ∧
     findProfileByUser "u1" (upsertProfile "u1" w1b w1S).2
       = some (applySet w1p (buildProfileFields "u1" w1b)) ∧
     (truthy w1b.company = false → (applySet w1p (buildProfileFields "u1" w1b)).company = w1p.company) ∧
     (truthy w1b.website = false → (applySet w1p (buildProfileFields "u1" w1b)).website = w1p.website) ∧
     (truthy w1b.location = false → (applySet w1p (buildProfileFields "u1" w1b)).location = w1p.location) ∧
     (truthy w1b.bio = false → (applySet w1p (buildProfileFields "u1" w1b)).bio = w1p.bio) ∧
     (truthy w1b.githubusername = false →
       (applySet w1p (buildProfileFields "u1" w1b)).githubusername = w1p.githubusername)) :=
  ⟨by decide, by decide,
   C1_repost_updates_in_place "u1" w1b w1S w1p (by decide) (by decide)⟩

/-- C10: on every upsert that updates an existing Profile, the stored
`social` mapping is replaced wholesale by the object built from the
current request alone, so any social key omitted now is cleared even if
previously stored — unlike a top-level optional field such as `company`,
which is retained when omitted. -/
theorem C10_social_replaced_wholesale (uid : String) (b : UpsertBody) (S : Store)
    (p : Profile) (hp : findProfileByUser uid S = some p)
    (hv : validateUpsert b = []) :
    findProfileByUser uid (upsertProfile uid b S).2
      = some (applySet p (buildProfileFields uid b)) ∧
    (applySet p (buildProfileFields uid b)).social = buildSocial b ∧
    (truthy b.youtube = false → (applySet p (buildProfileFields uid b)).social.youtube = none) ∧
    (truthy b.twitter = false → (applySet p (buildProfileFields uid b)).social.twitter = none) ∧
    (truthy b.linkedin = false → (applySet p (buildProfileFields uid b)).social.linkedin = none) ∧
    (truthy b.facebook = false → (applySet p (buildProfileFields uid b)).social.facebook = none) ∧
    (truthy b.instagram = false → (applySet p (buildProfileFields uid b)).social.instagram = none) ∧
    (truthy b.company = false → (applySet p (buildProfileFields uid b)).company = p.company) := by
  have hf : S.profiles.find? (fun q => q.user == uid) = some p := hp
  have hr2 : (upsertProfile uid b S).2.profiles
      = modifyFirst (fun q => q.user == uid)
          (fun q => applySet q (buildProfileFields uid b)) S.profiles := by
    simp [upsertProfile, hv, hf]
  refine ⟨?_, rfl, ?_, ?_, ?_, ?_, ?_, ?_⟩
  · show (upsertProfile uid b S).2.profiles.find? (fun q => q.user == uid) = _
    rw [hr2]
    exact find?_modifyFirst _ _ _ p hf (by simp [applySet, buildProfileFields])
  · intro hc; simp [applySet, buildProfileFields, buildSocial, keepIf, hc]
  · intro hc; simp [applySet, buildProfileFields, buildSocial, keepIf, hc]
  · intro hc; simp [applySet, buildProfileFields, buildSocial, keepIf, hc]
  · intro hc; simp [applySet, buildProfileFields, buildSocial, keepIf, hc]
  · intro hc; simp [applySet, buildProfileFields, buildSocial, keepIf, hc]
  · intro hc; simp [applySet, buildProfileFields, keepIf, hc, setField]

/-- Stored profile for the C10 witness: youtube previously stored. -/
def w10p : Profile :=
  { emptyProfile "u1" with
    company := some "Acme"
    social := { emptySocial with youtube := some "yt.com/ann" }
    status := some "Dev"
    skills := ["js"] }

/-- Store for the C10 witness. -/
def w10S : Store := { emptyStore with profiles := [w10p] }

/-- Witness for C10: the second body omits every social key. -/
theorem C10_witness :
    findProfileByUser "u1" w10S = some w10p ∧
    validateUpsert w1b = [] ∧
    (findProfileByUser "u1" (upsertProfile "u1" w1b w10S).2
       = some (applySet w10p (buildProfileFields "u1" w1b)) ∧
     (applySet w10p (buildProfileFields "u1" w1b)).social = buildSocial w1b ∧
     (truthy w1b.youtube = false → (applySet w10p (buildProfileFields "u1" w1b)).social.youtube = none) ∧
     (truthy w1b.twitter = false → (applySet w10p (buildProfileFields "u1" w1b)).social.twitter = none) ∧
     (truthy w1b.linkedin = false → (applySet w10p (buildProfileFields "u1" w1b)).social.linkedin = none) ∧
     (truthy w1b.facebook = false → (applySet w10p (buildProfileFields "u1" w1b)).social.facebook = none) ∧
     (truthy w1b.instagram = false → (applySet w10p (buildProfileFields "u1" w1b)).social.instagram = none) ∧
     (truthy w1b.company = false → (applySet w10p (buildProfileFields "u1" w1b)).company = w10p.company)) :=
  ⟨by decide, by decide,
   C10_social_replaced_wholesale "u1" w1b w10S w10p (by decide) (by decide)⟩

/-- C5: when both `status` and `skills` are missing or empty, the POST
handler answers 400 with the structured error list containing the field
error for `status` and the field error for `skills`, and the store is not
written. -/
theorem C5_missing_required_both_errors (uid : String) (b : UpsertBody) (S : Store)
    (hs : truthy b.status = false) (hk : truthy b.skills = false) :
    (upsertProfile uid b S).1 = Response.badRequestErrors
        [{ param := "status", msg := "Status is required" },
         { param := "skills", msg := "Skills is required" }] ∧
    ({ param := "status", msg := "Status is required" } : FieldError)
        ∈ validateUpsert b ∧
    ({ param := "skills", msg := "Skills is required" } : FieldError)
        ∈ validateUpsert b ∧
    (upsertProfile uid b S).2 = S := by
  have hv : validateUpsert b
      = [{ param := "status", msg := "Status is required" },
         { param := "skills", msg := "Skills is required" }] := by
    simp [validateUpsert, hs, hk]
  refine ⟨?_, ?_, ?_, ?_⟩
  · simp [upsertProfile, hv]
  · simp [hv]
  · simp [hv]
  · simp [upsertProfile, hv]

/-- Witness for C5: the body with every field absent. -/
theorem C5_witness :
    truthy emptyBody.status = false ∧
    truthy emptyBody.skills = false ∧
    ((upsertProfile "u1" emptyBody emptyStore).1 = Response.badRequestErrors
        [{ param := "status", msg := "Status is required" },
         { param := "skills", msg := "Skills is required" }] ∧
     ({ param := "status", msg := "Status is required" } : FieldError)
         ∈ validateUpsert emptyBody ∧
     ({ param := "skills", msg := "Skills is required" } : FieldError)
         ∈ validateUpsert emptyBody ∧
     (upsertProfile "u1" emptyBody emptyStore).2 = emptyStore) :=
  ⟨by decide, by decide,
   C5_missing_required_both_errors "u1" emptyBody emptyStore (by decide) (by decide)⟩

/-- C4: on a successful create (no existing profile, validation passed,
`skills` provided), the persisted profile's `skills` is the list obtained
by splitting the input on commas and trimming each segment — never the
raw string — and in particular "node, react , express" is stored as
["node", "react", "express"]. -/
theorem C4_skills_split_and_trimmed (uid : String) (b : UpsertBody) (S : Store)
    (sk : String) (hn : findProfileByUser uid S = none) (hsk : b.skills = some sk)
    (hv : validateUpsert b = []) :
    (upsertProfile uid b S).1 = Response.ok (newProfile (buildProfileFields uid b)) ∧
    (newProfile (buildProfileFields uid b)).skills = parseSkills sk ∧
    findProfileByUser uid (upsertProfile uid b S).2
      = some (newProfile (buildProfileFields uid b)) ∧
    parseSkills "node, react , express" = ["node", "react", "express"] := by
  have hf : S.profiles.find? (fun q => q.user == uid) = none := hn
  obtain ⟨hst, hsk2⟩ := validateUpsert_nil b hv
  have hkeep : keepIf b.skills = some sk := by
    rw [hsk] at hsk2 ⊢
    simp [keepIf, hsk2]
  refine ⟨by simp [upsertProfile, hv, hf], ?_, ?_, by decide⟩
  · simp [newProfile, buildProfileFields, hkeep]
  · have hr2 : (upsertProfile uid b S).2.profiles
        = S.profiles ++ [newProfile (buildProfileFields uid b)] := by
      simp [upsertProfile, hv, hf]
    show (upsertProfile uid b S).2.profiles.find? (fun q => q.user == uid) = _
    rw [hr2]
    exact find?_append_singleton_of_none _ _ _ hf
      (by simp [newProfile, buildProfileFields])

/-- Body for the C4 witness, carrying the spec's example skills string. -/
def w4b : UpsertBody :=
  { emptyBody with status := some "Dev", skills := some "node, react , express" }

/-- Witness for C4 at the empty store. -/
theorem C4_witness :
    findProfileByUser "u1" emptyStore = none ∧
    w4b.skills = some "node, react , express" ∧
    validateUpsert w4b = [] ∧
    ((upsertProfile "u1" w4b emptyStore).1
       = Response.ok (newProfile (buildProfileFields "u1" w4b)) ∧
     (newProfile (buildProfileFields "u1" w4b)).skills
       = parseSkills "node, react , express" ∧
     findProfileByUser "u1" (upsertProfile "u1" w4b emptyStore).2
       = some (newProfile (buildProfileFields "u1" w4b)) ∧
     parseSkills "node, react , express" = ["node", "react", "express"]) :=
  ⟨by decide, by decide, by decide,
   C4_skills_split_and_trimmed "u1" w4b emptyStore "node, react , express"
     (by decide) (by decide) (by decide)⟩

theorem addExperience_step (uid : String) (b : ExperienceBody) (S : Store)
    (p : Profile) (hp : findProfileByUser uid S = some p)
    (hv : validateExperience b = []) :
    (addExperience uid b S).1
      = Response.ok { p with experiences := mkExperience S.nextId b :: p.experiences } ∧
    findProfileByUser uid (addExperience uid b S).2
      = some { p with experiences := mkExperience S.nextId b :: p.experiences } ∧
    (addExperience uid b S).2.nextId = S.nextId + 1 := by
  have hf : S.profiles.find? (fun q => q.user == uid) = some p := hp
  have hr : (addExperience uid b S).2.profiles
      = modifyFirst (fun q => q.user == uid)
          (fun _ => { p with experiences := mkExperience S.nextId b :: p.experiences })
          S.profiles := by
    simp [addExperience, hv, hf]
  refine ⟨by simp [addExperience, hv, hf], ?_, by simp [addExperience, hv, hf]⟩
  show (addExperience uid b S).2.profiles.find? (fun q => q.user == uid) = _
  rw [hr]
  exact find?_modifyFirst _ _ _ p hf (by simpa using List.find?_some hf)

theorem addEducation_step (uid : String) (b : EducationBody) (S : Store)
    (p : Profile) (hp : findProfileByUser uid S = some p)
    (hv : validateEducation b = []) :
    (addEducation uid b S).1
      = Response.ok { p with education := mkEducation S.nextId b :: p.education } ∧
    findProfileByUser uid (addEducation uid b S).2
      = some { p with education := mkEducation S.nextId b :: p.education } ∧
    (addEducation uid b S).2.nextId = S.nextId + 1 := by
  have hf : S.profiles.find? (fun q => q.user == uid) = some p := hp
  have hr : (addEducation uid b S).2.profiles
      = modifyFirst (fun q => q.user == uid)
          (fun _ => { p with education := mkEducation S.nextId b :: p.education })
          S.profiles := by
    simp [addEducation, hv, hf]
  refine ⟨by simp [addEducation, hv, hf], ?_, by simp [addEducation, hv, hf]⟩
  show (addEducation uid b S).2.profiles.find? (fun q => q.user == uid) = _
  rw [hr]
  exact find?_modifyFirst _ _ _ p hf (by simpa using List.find?_some hf)

/-- C6: addExperience prepends — after adding experience E1 and then E2,
the stored sequence begins [E2, E1] (followed by whatever was there
before); the same prepend order holds for addEducation. -/
theorem C6_add_prepends (uid : String) (b1 b2 : ExperienceBody)
    (c1 c2 : EducationBody) (S : Store) (p : Profile)
    (hp : findProfileByUser uid S = some p)
    (h1 : validateExperience b1 = []) (h2 : validateExperience b2 = [])
    (h3 : validateEducation c1 = []) (h4 : validateEducation c2 = []) :
    (findProfileByUser uid (addExperience uid b2 (addExperience uid b1 S).2).2).map
        (fun q => q.experiences)
      = some (mkExperience ((addExperience uid b1 S).2.nextId) b2
          :: mkExperience S.nextId b1 :: p.experiences) ∧
    (findProfileByUser uid (addEducation uid c2 (addEducation uid c1 S).2).2).map
        (fun q => q.education)
      = some (mkEducation ((addEducation uid c1 S).2.nextId) c2
          :: mkEducation S.nextId c1 :: p.education) := by
  obtain ⟨_, ha2, _⟩ := addExperience_step uid b1 S p hp h1
  obtain ⟨_, hb2, _⟩ := addExperience_step uid b2 _ _ ha2 h2
  obtain ⟨_, hc2, _⟩ := addEducation_step uid c1 S p hp h3
  obtain ⟨_, hd2, _⟩ := addEducation_step uid c2 _ _ hc2 h4
  constructor
  · rw [hb2]; rfl
  · rw [hd2]; rfl

/-- Second experience body for the C6 witness. -/
def w6exp2 : ExperienceBody :=
  { title := some "Lead", company := some "Globex", location := some "NYC",
    fromDate := some "2022", toDate := none, current := some "true",
    description := some "lead role" }

/-- First education body for the C6 witness. -/
def w6edu1 : EducationBody :=
  { school := some "MIT", degree := some "BS", fieldOfStudy := some "CS",
    fromDate := some "2015", toDate := some "2019", current := none,
    description := none }

/-- Second education body for the C6 witness. -/
def w6edu2 : EducationBody :=
  { school := some "CMU", degree := some "MS", fieldOfStudy := some "SE",
    fromDate := some "2019", toDate := none, current := some "true",
    description := none }

/-- Store for the C6 witness: one profile for u1. -/
def w6S : Store := { emptyStore with profiles := [emptyProfile "u1"], nextId := 5 }

/-- Witness for C6 at a concrete store and bodies. -/
theorem C6_witness :
    findProfileByUser "u1" w6S = some (emptyProfile "u1") ∧
    validateExperience w9exp = [] ∧
    validateExperience w6exp2 = [] ∧
    validateEducation w6edu1 = [] ∧
    validateEducation w6edu2 = [] ∧
    ((findProfileByUser "u1" (addExperience "u1" w6exp2 (addExperience "u1" w9exp w6S).2).2).map
        (fun q => q.experiences)
      = some (mkExperience ((addExperience "u1" w9exp w6S).2.nextId) w6exp2
          :: mkExperience w6S.nextId w9exp :: (emptyProfile "u1").experiences) ∧
     (findProfileByUser "u1" (addEducation "u1" w6edu2 (addEducation "u1" w6edu1 w6S).2).2).map
        (fun q => q.education)
      = some (mkEducation ((addEducation "u1" w6edu1 w6S).2.nextId) w6edu2
          :: mkEducation w6S.nextId w6edu1 :: (emptyProfile "u1").education)) :=
  ⟨by decide, by decide, by decide, by decide, by decide,
   C6_add_prepends "u1" w9exp w6exp2 w6edu1 w6edu2 w6S (emptyProfile "u1")
     (by decide) (by decide) (by decide) (by decide) (by decide)⟩

/-- Experience entry with identifier 0, for the C3 runs. -/
def w3exp : Experience := mkExperience 0 w9exp

/-- Education entry with identifier 0, for the C3 runs. -/
def w3edu : Education := mkEducation 0 w6edu1

/-- Profile holding exactly one experience and one education entry. -/
def w3p : Profile :=
  { emptyProfile "u1" with
    experiences := [w3exp]
    education := [w3edu] }

/-- Store for the C3 runs. -/
def w3S : Store := { emptyStore with profiles := [w3p], nextId := 1 }

/-- Counterexample for C3 as stated: identifier 1 occurs in neither
sequence (both hold only identifier 0), yet removeExperience (and
removeEducation) with 1 does not leave the sequence unchanged — `indexOf`
yields -1 and `splice(-1, 1)` removes the last entry, so the one-entry
sequences become empty, and no error is reported. -/
theorem C3_counterexample :
    w3p.experiences.map (fun e => e.id) = [0] ∧
    w3p.education.map (fun e => e.id) = [0] ∧
    (removeExperience "u1" 1 w3S).1 = Response.ok { w3p with experiences := [] } ∧
    (findProfileByUser "u1" (removeExperience "u1" 1 w3S).2).map (fun q => q.experiences)
      = some [] ∧
    (removeEducation "u1" 1 w3S).1 = Response.ok { w3p with education := [] } ∧
    (findProfileByUser "u1" (removeEducation "u1" 1 w3S).2).map (fun q => q.education)
      = some [] := by decide

/-- C3 amended: for an entry id that does not occur in the profile's
experiences (respectively education) sequence, removeExperience
(respectively removeEducation) reports no error, but instead of leaving
the sequence unchanged it drops the LAST entry (`indexOf` yields -1 and
`splice(-1, 1)` removes the final element); only an already-empty
sequence is left unchanged. -/
theorem C3_remove_missing_id_drops_last (uid : String) (eid : Nat) (S : Store)
    (p : Profile) (hp : findProfileByUser uid S = some p)
    (hexp : eid ∉ p.experiences.map (fun e => e.id))
    (hedu : eid ∉ p.education.map (fun e => e.id)) :
    (removeExperience uid eid S).1
      = Response.ok { p with experiences := p.experiences.dropLast } ∧
    (findProfileByUser uid (removeExperience uid eid S).2).map (fun q => q.experiences)
      = some p.experiences.dropLast ∧
    (removeEducation uid eid S).1
      = Response.ok { p with education := p.education.dropLast } ∧
    (findProfileByUser uid (removeEducation uid eid S).2).map (fun q => q.education)
      = some p.education.dropLast := by
  have hf : S.profiles.find? (fun q => q.user == uid) = some p := hp
  have h1 : jsIndexOf (p.experiences.map (fun e => e.id)) eid = -1 :=
    jsIndexOf_eq_neg_one _ _ hexp
  have h2 : jsIndexOf (p.education.map (fun e => e.id)) eid = -1 :=
    jsIndexOf_eq_neg_one _ _ hedu
  have hrx : (removeExperience uid eid S).2.profiles
      = modifyFirst (fun q => q.user == uid)
          (fun _ => { p with experiences := spliceRemove p.experiences (jsIndexOf (p.experiences.map (fun e => e.id)) eid) 1 })
          S.profiles := by
    simp [removeExperience, hf]
  have hrd : (removeEducation uid eid S).2.profiles
      = modifyFirst (fun q => q.user == uid)
          (fun _ => { p with education := spliceRemove p.education (jsIndexOf (p.education.map (fun e => e.id)) eid) 1 })
          S.profiles := by
    simp [removeEducation, hf]
  refine ⟨?_, ?_, ?_, ?_⟩
  · simp [removeExperience, hf, h1, spliceRemove_neg_one]
  · show ((removeExperience uid eid S).2.profiles.find? (fun q => q.user == uid)).map
        (fun q => q.experiences) = some p.experiences.dropLast
    rw [hrx, find?_modifyFirst _ _ _ p hf (by simpa using List.find?_some hf)]
    simp [h1, spliceRemove_neg_one]
  · simp [removeEducation, hf, h2, spliceRemove_neg_one]
  · show ((removeEducation uid eid S).2.profiles.find? (fun q => q.user == uid)).map
        (fun q => q.education) = some p.education.dropLast
    rw [hrd, find?_modifyFirst _ _ _ p hf (by simpa using List.find?_some hf)]
    simp [h2, spliceRemove_neg_one]

/-- Witness for the amended C3 at the concrete one-entry store. -/
theorem C3_witness :
    findProfileByUser "u1" w3S = some w3p ∧
    1 ∉ w3p.experiences.map (fun e => e.id) ∧
    1 ∉ w3p.education.map (fun e => e.id) ∧
    ((removeExperience "u1" 1 w3S).1
       = Response.ok { w3p with experiences := w3p.experiences.dropLast } ∧
     (findProfileByUser "u1" (removeExperience "u1" 1 w3S).2).map (fun q => q.experiences)
       = some w3p.experiences.dropLast ∧
     (removeEducation "u1" 1 w3S).1
       = Response.ok { w3p with education := w3p.education.dropLast } ∧
     (findProfileByUser "u1" (removeEducation "u1" 1 w3S).2).map (fun q => q.education)
       = some w3p.education.dropLast) :=
  ⟨by decide, by decide, by decide,
   C3_remove_missing_id_drops_last "u1" 1 w3S w3p (by decide) (by decide) (by decide)⟩

/-- C7: evaluation of `GET api/profile/user/:user_id` (part_000 version)
at the decisive inputs.  For a malformed id the route answers 400
"Profile not found!" as the claim says, but for a well-formed id that is
simply absent from the store, `findOne` yields null, the guard
`profile.length === 0` throws a TypeError, and the route answers 500
"Server Error!" instead of the claimed 400 — while the sibling
`Profile.find`-based iteration of the route answers 400 as claimed. -/
theorem C7_absent_wellformed_id_yields_500 :
    isValidObjectId "0123456789abcdef01234567" = true ∧
    findProfileByUser "0123456789abcdef01234567" emptyStore = none ∧
    getProfileByUser "0123456789abcdef01234567" emptyStore
      = Response.serverError "Server Error!" ∧
    getProfileByUser "0123456789abcdef01234567" emptyStore
      ≠ Response.badRequestMsg "Profile not found!" ∧
    getProfileByUser "not-an-object-id" emptyStore
      = Response.badRequestMsg "Profile not found!" ∧
    getProfileByUserFind "0123456789abcdef01234567" emptyStore
      = Response.badRequestMsg "Profile not found!" := by decide

/-- Counterexample for C8 as stated: the constructed request URI asks the
GitHub API for `sort=created:asc` — an ascending (oldest-first) creation
order as written, not the five most recently created repositories, which
would need the descending direction spelled out in
`specMostRecentlyCreatedUri`. -/
theorem C8_counterexample :
    githubRequestUri "octocat"
      = "https://api.github.com/users/octocat/repos?per_page=5&sort=created:asc" ∧
    githubRequestUri "octocat" ≠ specMostRecentlyCreatedUri "octocat" ∧
    specMostRecentlyCreatedUri "octocat"
      = "https://api.github.com/users/octocat/repos?per_page=5&sort=created&direction=desc" := by
  decide

/-- C8 amended: the handler requests 5 repositories per page with sort
parameter `created:asc` (ascending as written, not newest-first), sending
the configured token in the Authorization header, and on any upstream
failure — regardless of cause — answers 404 with the one generic message,
while success forwards the upstream data. -/
theorem C8_github_request_and_error_conflation
    (githubToken username cause : String) (d : List String) :
    buildGithubRequest githubToken username
      = { uri := "https://api.github.com/users/" ++ username ++ "/repos?per_page=5&sort=created:asc",
          userAgent := "node.js",
          authorization := "token " ++ githubToken } ∧
    fetchGithubRepos (@UpstreamResult.failure (List String) cause)
      = Response.notFoundMsg "No Github profile found!!!!" ∧
    fetchGithubRepos (UpstreamResult.success d) = Response.ok d :=
  ⟨rfl, rfl, rfl⟩
